import Mathlib

/-!
# GreyRoom matching and session coordinator — verification development

Shallow embedding of the Socket.io coordinator in src/src/pages/api/socket.js.

Modelling conventions:
* A JS `Map` preserving insertion order is an association list `List (String × α)`;
  `Map.set` updates in place when the key exists, otherwise appends.
* Socket ids, device ids, nicknames etc. are `String`; `Date.now()` values are `Nat`
  supplied as explicit parameters (the code never reads `createdAt`/`joinedAt`/`startedAt`).
* `undefined`/missing payload fields are `Option`; the JS falsy test on a string field
  (`!deviceId`, `preferredGender || "any"`, `bio || ""`) treats `none` and `some ""` alike.
* Session and message ids (`Date.now()` + `Math.random()` strings) are explicit
  parameters of the handlers that generate them.
* Every `socket.emit` / targeted emit is recorded in an `Emit` list carrying exactly the
  fields the JS payload carries.
* A JS `TypeError` escaping a handler is recorded in the `err` field of the handler
  result, together with the state as mutated up to the point of the throw.
* `io.sockets.sockets.get(id)` succeeding is membership of `id` in `connectedSockets`;
  `socket.data.inQueue` is the partial map `inQueueFlags` (absence models `null`/unset).
-/

namespace GreyRoom

/-- UserData as built by auth:register (socket.js lines 199-206). -/
structure UserData where
  socketId : String
  deviceId : String
  nickname : String
  bio : String
  gender : String
  createdAt : Nat
deriving DecidableEq, Repr

/-- Queue entry as built by queue:join (socket.js lines 279-284). -/
structure QueueEntry where
  socketId : String
  user : UserData
  preferredGender : String
  joinedAt : Nat
deriving DecidableEq, Repr

/-- Chat session as built by tryMatch (socket.js lines 621-625). -/
structure Session where
  id : String
  participants : List String
  startedAt : Nat
deriving DecidableEq, Repr

/-- First value bound to a key, like `Map.get`. -/
def mapGet (m : List (String × α)) (k : String) : Option α :=
  (m.find? (fun p => p.1 = k)).map (fun p => p.2)

/-- `Map.set`: replace in place when the key is present, else append. -/
def mapSet (m : List (String × α)) (k : String) (v : α) : List (String × α) :=
  if m.any (fun p => p.1 = k) then
    m.map (fun p => if p.1 = k then (k, v) else p)
  else
    m ++ [(k, v)]

/-- `Map.delete`. -/
def mapDelete (m : List (String × α)) (k : String) : List (String × α) :=
  m.filter (fun p => ¬ p.1 = k)

/-- `Array.from(map.values())` in insertion order. -/
def mapValues (m : List (String × α)) : List α :=
  m.map (fun p => p.2)

/-- The whole in-memory server state of socket.js, plus the per-socket
`socket.data.inQueue` flags and the set of currently connected sockets. -/
structure SrvState where
  connectedUsers : List (String × UserData)
  queueAny : List QueueEntry
  queueMale : List QueueEntry
  queueFemale : List QueueEntry
  activeSessions : List (String × Session)
  inQueueFlags : List (String × String)
  connectedSockets : List String
deriving DecidableEq, Repr

/-- The empty initial state (module load). -/
def initState : SrvState :=
  ⟨[], [], [], [], [], [], []⟩

/-- `matchingQueue[queueType]`; an unknown key is JS `undefined`, which the
matcher turns into `[]` via `|| []` — represented here by the empty list. -/
def SrvState.getQueue (st : SrvState) (queueType : String) : List QueueEntry :=
  if queueType = "any" then st.queueAny
  else if queueType = "male" then st.queueMale
  else if queueType = "female" then st.queueFemale
  else []

/-- The three queue names on which `matchingQueue[queueType].push` is defined. -/
def validQueueType (queueType : String) : Bool :=
  queueType = "any" || queueType = "male" || queueType = "female"

/-- `matchingQueue[queueType].push(entry)` for a valid queueType
(the caller checks `validQueueType` first; the JS throws otherwise). -/
def pushQueue (st : SrvState) (queueType : String) (e : QueueEntry) : SrvState :=
  if queueType = "any" then { st with queueAny := st.queueAny ++ [e] }
  else if queueType = "male" then { st with queueMale := st.queueMale ++ [e] }
  else if queueType = "female" then { st with queueFemale := st.queueFemale ++ [e] }
  else st

/-- removeFromQueue (socket.js lines 553-559): filter the entry out of all
three queues. -/
def removeFromQueue (socketId : String) (st : SrvState) : SrvState :=
  { st with
    queueAny := st.queueAny.filter (fun e => ¬ e.socketId = socketId),
    queueMale := st.queueMale.filter (fun e => ¬ e.socketId = socketId),
    queueFemale := st.queueFemale.filter (fun e => ¬ e.socketId = socketId) }

/-- getSessionBySocket (socket.js lines 663-670): first session in insertion
order having the socket among its participants. -/
def getSessionBySocket (socketId : String) (st : SrvState) : Option Session :=
  ((st.activeSessions.find? (fun p => p.2.participants.contains socketId)).map
    (fun p => p.2))

/-- Every payload the server emits to a single socket; the first argument is
always the target socket id, the remaining arguments are exactly the fields of
the JS payload object. -/
inductive Emit where
  | registerOk (target : String) (data : UserData)
  | registerErr (target : String) (error : String)
  | queueJoinOk (target : String) (queueType : String) (position : Nat)
  | queueJoinErr (target : String) (error : String)
  | queueLeaveOk (target : String)
  | queueStatusNone (target : String)
  | queueStatusSome (target : String) (queueType : String) (position : Nat) (totalInQueue : Nat)
  | matchFound (target : String) (sessionId : String) (partnerNickname : String) (partnerBio : String)
  | chatMessage (target : String) (id : String) (sender : String) (content : Option String)
      (timestamp : Nat) (isOwn : Bool)
  | chatSendErr (target : String) (error : String)
  | chatLeaveOk (target : String)
  | partnerLeft (target : String) (message : String)
  | logoutOk (target : String)
deriving DecidableEq, Repr

/-- Result of running one event handler: the state as left behind (including
mutations made before any throw), the emitted payloads, and the message of a
JS TypeError that escaped the handler, when one did. -/
structure HandlerResult where
  st : SrvState
  emits : List Emit
  err : Option String
deriving DecidableEq, Repr

/-- The candidate pool computed by tryMatch (socket.js lines 588-607):
all queues for an "any" joiner, else the any queue plus the queue named after
the joiner's own gender (`matchingQueue[targetGender] || []`), always
excluding self. -/
def tryMatchPool (st : SrvState) (socketId : String) (queueType : String)
    (userGender : String) : List QueueEntry :=
  if queueType = "any" then
    (st.queueAny ++ st.queueMale ++ st.queueFemale).filter
      (fun e => ¬ e.socketId = socketId)
  else
    (st.queueAny ++ st.getQueue userGender).filter
      (fun e => ¬ e.socketId = socketId)

/-- tryMatch (socket.js lines 584-652). `freshSessionId` stands for the
generated `session_<now>_<random>` string and `now` for `Date.now()`. -/
def tryMatch (socketId : String) (queueType : String) (freshSessionId : String)
    (now : Nat) (io_st : SrvState) : SrvState × List Emit :=
  match mapGet io_st.connectedUsers socketId with
  | none => (io_st, [])
  | some user =>
    match tryMatchPool io_st socketId queueType user.gender with
    | [] => (io_st, [])
    | m :: _ =>
      let st1 := removeFromQueue m.socketId (removeFromQueue socketId io_st)
      let session : Session := ⟨freshSessionId, [socketId, m.socketId], now⟩
      let st2 := { st1 with
        activeSessions := mapSet st1.activeSessions freshSessionId session }
      let emits :=
        [Emit.matchFound socketId freshSessionId m.user.nickname m.user.bio] ++
        (if io_st.connectedSockets.contains m.socketId then
          [Emit.matchFound m.socketId freshSessionId user.nickname user.bio]
        else [])
      (st2, emits)

/-- ASCII case of `String.prototype.toLowerCase`, applied per character
(nicknames in this model are ASCII; written out so the kernel can evaluate
concrete instances). -/
def jsLowerChar (c : Char) : Char :=
  if 65 ≤ c.toNat ∧ c.toNat ≤ 90 then Char.ofNat (c.toNat + 32) else c

/-- `nickname.toLowerCase()`. -/
def jsToLower (s : String) : String :=
  ⟨s.data.map jsLowerChar⟩

/-- JS falsy test on an optional string field: `undefined` and `""` are falsy. -/
def strTruthy : Option String → Bool
  | none => false
  | some s => decide (¬ s = "")

/-- `field || dflt` on an optional string field. -/
def jsOr (s : Option String) (dflt : String) : String :=
  match s with
  | none => dflt
  | some v => if v = "" then dflt else v

/-- auth:register payload; absent object fields are `none`. -/
structure RegisterData where
  deviceId : Option String
  nickname : Option String
  bio : Option String
  gender : Option String
deriving DecidableEq, Repr

/-- auth:register handler (socket.js lines 165-218). `now` is `Date.now()`. -/
def authRegister (sid : String) (data : Option RegisterData) (now : Nat)
    (st : SrvState) : HandlerResult :=
  match data with
  | none =>
    -- const { deviceId, ... } = data — destructuring undefined throws
    ⟨st, [], some "TypeError: cannot destructure property of undefined"⟩
  | some d =>
    if ¬ (strTruthy d.deviceId ∧ strTruthy d.nickname) then
      ⟨st, [Emit.registerErr sid "Device ID and nickname are required"], none⟩
    else
      let deviceId := d.deviceId.getD ""
      let nickname := d.nickname.getD ""
      let existingUser := (mapValues st.connectedUsers).find? (fun u =>
        jsToLower u.nickname = jsToLower nickname ∧ ¬ u.socketId = sid ∧
        ¬ u.deviceId = deviceId)
      match existingUser with
      | some _ =>
        ⟨st, [Emit.registerErr sid "This nickname is already in use"], none⟩
      | none =>
        -- eviction loop (lines 192-196): delete every other entry with the same deviceId
        let evicted := st.connectedUsers.filter (fun p =>
          ¬ (p.2.deviceId = deviceId ∧ ¬ p.1 = sid))
        let userData : UserData :=
          ⟨sid, deviceId, nickname, jsOr d.bio "", jsOr d.gender "unspecified", now⟩
        ⟨{ st with connectedUsers := mapSet evicted sid userData },
         [Emit.registerOk sid userData], none⟩

/-- auth:logout handler (socket.js lines 240-245). `socket.data.user = null` is
not modelled: the server never reads it. -/
def authLogout (sid : String) (st : SrvState) : HandlerResult :=
  let st1 := removeFromQueue sid st
  ⟨{ st1 with connectedUsers := mapDelete st1.connectedUsers sid },
   [Emit.logoutOk sid], none⟩

/-- queue:join payload. -/
structure QueueJoinData where
  preferredGender : Option String
deriving DecidableEq, Repr

/-- queue:join handler (socket.js lines 260-299), including the inline call to
tryMatch. `matchingQueue[queueType].push` throws when `queueType` is not one of
the three queue names; the removal performed before the push persists. -/
def queueJoin (sid : String) (data : Option QueueJoinData) (freshSessionId : String)
    (now : Nat) (st : SrvState) : HandlerResult :=
  match mapGet st.connectedUsers sid with
  | none => ⟨st, [Emit.queueJoinErr sid "Please register first"], none⟩
  | some user =>
    -- const { preferredGender } = data || {}
    let preferredGender := match data with
      | none => none
      | some d => d.preferredGender
    let queueType := jsOr preferredGender "any"
    let st1 := removeFromQueue sid st
    if validQueueType queueType then
      let entry : QueueEntry := ⟨sid, user, queueType, now⟩
      let st2 := pushQueue st1 queueType entry
      let st3 := { st2 with inQueueFlags := mapSet st2.inQueueFlags sid queueType }
      let ack := Emit.queueJoinOk sid queueType (st2.getQueue queueType).length
      let r := tryMatch sid queueType freshSessionId now st3
      ⟨r.1, [ack] ++ r.2, none⟩
    else
      ⟨st1, [], some "TypeError: matchingQueue[queueType] is undefined"⟩

/-- queue:leave handler (socket.js lines 307-311); resetting
`socket.data.inQueue` to null is deletion from the flag map. -/
def queueLeave (sid : String) (st : SrvState) : HandlerResult :=
  let st1 := removeFromQueue sid st
  ⟨{ st1 with inQueueFlags := mapDelete st1.inQueueFlags sid },
   [Emit.queueLeaveOk sid], none⟩

/-- queue:status handler (socket.js lines 319-336): driven entirely by the
`socket.data.inQueue` flag; `findIndex` returning -1 yields position 0. -/
def queueStatus (sid : String) (st : SrvState) : HandlerResult :=
  match mapGet st.inQueueFlags sid with
  | none => ⟨st, [Emit.queueStatusNone sid], none⟩
  | some queueType =>
    if queueType = "" then ⟨st, [Emit.queueStatusNone sid], none⟩
    else if validQueueType queueType then
      let q := st.getQueue queueType
      let position := match q.findIdx? (fun e => e.socketId = sid) with
        | some i => i + 1
        | none => 0
      ⟨st, [Emit.queueStatusSome sid queueType position q.length], none⟩
    else
      ⟨st, [], some "TypeError: matchingQueue[queueType] is undefined"⟩

/-- chat:send payload; a present object with a missing `message` field delivers
`content: undefined` without throwing. -/
structure ChatSendData where
  message : Option String
deriving DecidableEq, Repr

/-- chat:send handler (socket.js lines 350-381). The message object literal
evaluates `user.nickname` before `data.message`, so a missing profile throws
first, then a missing payload. -/
def chatSend (sid : String) (data : Option ChatSendData) (freshMessageId : String)
    (now : Nat) (st : SrvState) : HandlerResult :=
  match getSessionBySocket sid st with
  | none => ⟨st, [Emit.chatSendErr sid "Not in an active chat"], none⟩
  | some session =>
    match mapGet st.connectedUsers sid with
    | none => ⟨st, [], some "TypeError: cannot read nickname of undefined"⟩
    | some user =>
      match data with
      | none => ⟨st, [], some "TypeError: cannot read message of undefined"⟩
      | some d =>
        let emits := session.participants.filterMap (fun participantId =>
          if st.connectedSockets.contains participantId then
            some (Emit.chatMessage participantId freshMessageId user.nickname
              d.message now (decide (participantId = sid)))
          else none)
        ⟨st, emits, none⟩

/-- chat:leave handler (socket.js lines 413-434). -/
def chatLeave (sid : String) (st : SrvState) : HandlerResult :=
  match getSessionBySocket sid st with
  | none => ⟨st, [Emit.chatLeaveOk sid], none⟩
  | some session =>
    let pEmits := match session.participants.find? (fun p => ¬ p = sid) with
      | none => []
      | some partnerId =>
        if st.connectedSockets.contains partnerId then
          [Emit.partnerLeft partnerId "Stranger has left the chat"]
        else []
    ⟨{ st with activeSessions := mapDelete st.activeSessions session.id },
     pEmits ++ [Emit.chatLeaveOk sid], none⟩

/-- disconnect handler (socket.js lines 507-532); removal of the socket itself
(connected-socket set and its `socket.data`) is transport semantics. -/
def disconnect (sid : String) (st : SrvState) : HandlerResult :=
  let r : SrvState × List Emit :=
    match getSessionBySocket sid st with
    | none => (st, [])
    | some session =>
      let pEmits := match session.participants.find? (fun p => ¬ p = sid) with
        | none => []
        | some partnerId =>
          if st.connectedSockets.contains partnerId then
            [Emit.partnerLeft partnerId "Stranger has disconnected"]
          else []
      ({ st with activeSessions := mapDelete st.activeSessions session.id }, pEmits)
  let stB := removeFromQueue sid r.1
  ⟨{ stB with
      connectedUsers := mapDelete stB.connectedUsers sid,
      connectedSockets := stB.connectedSockets.filter (fun s => ¬ s = sid),
      inQueueFlags := mapDelete stB.inQueueFlags sid },
   r.2, none⟩

/-- A new socket connection (io.on connection). -/
def connectSocket (sid : String) (st : SrvState) : SrvState :=
  { st with connectedSockets := st.connectedSockets ++ [sid] }

/-- The socket ids occupying any of the three preference queues, in queue
iteration order any → male → female. -/
def queueIds (st : SrvState) : List String :=
  (st.queueAny ++ st.queueMale ++ st.queueFemale).map QueueEntry.socketId

/-- The eligible candidate pool as §4.3 of the spec words it: for preference
`any`, all entries of the three queues; for a specific preference, all entries
of the `any` queue plus the queue named after the joining user's OWN gender
(not their preference); self always excluded; any-queue entries first, each
queue in FIFO order. -/
def specEligiblePool (st : SrvState) (sid : String) (preference : String)
    (ownGender : String) : List QueueEntry :=
  if preference = "any" then
    (st.queueAny ++ st.queueMale ++ st.queueFemale).filter
      (fun e => ¬ e.socketId = sid)
  else
    (st.queueAny ++ st.getQueue ownGender).filter
      (fun e => ¬ e.socketId = sid)

/-- The duplicate-nickname condition of auth:register: some currently connected
user with the same nickname (case-insensitive), a different socket and a
different device. -/
def nicknameConflict (st : SrvState) (sid deviceId nickname : String) : Bool :=
  (mapValues st.connectedUsers).any (fun u =>
    jsToLower u.nickname = jsToLower nickname ∧ ¬ u.socketId = sid ∧
    ¬ u.deviceId = deviceId)

/-- One server operation: a socket connecting, or any of the modelled event
handlers firing with an arbitrary payload. -/
inductive Step : SrvState → SrvState → Prop where
  | connect (sid : String) (st : SrvState) :
      Step st (connectSocket sid st)
  | register (sid : String) (data : Option RegisterData) (now : Nat) (st : SrvState) :
      Step st (authRegister sid data now st).st
  | logout (sid : String) (st : SrvState) :
      Step st (authLogout sid st).st
  | join (sid : String) (data : Option QueueJoinData) (freshSessionId : String)
      (now : Nat) (st : SrvState) :
      Step st (queueJoin sid data freshSessionId now st).st
  | leave (sid : String) (st : SrvState) :
      Step st (queueLeave sid st).st
  | status (sid : String) (st : SrvState) :
      Step st (queueStatus sid st).st
  | send (sid : String) (data : Option ChatSendData) (freshMessageId : String)
      (now : Nat) (st : SrvState) :
      Step st (chatSend sid data freshMessageId now st).st
  | chatLv (sid : String) (st : SrvState) :
      Step st (chatLeave sid st).st
  | disc (sid : String) (st : SrvState) :
      Step st (disconnect sid st).st

/-! Concrete executions used below.

First family: connection c1 registers device "d" and queues up; then c2
registers the same device "d". -/

def exS0 : SrvState := connectSocket "c2" (connectSocket "c1" initState)

def exS1 : SrvState :=
  (authRegister "c1" (some ⟨some "d", some "alice", none, none⟩) 1 exS0).st

def exS2 : SrvState := (queueJoin "c1" (some ⟨some "any"⟩) "SX" 2 exS1).st

def exR3 : HandlerResult :=
  authRegister "c2" (some ⟨some "d", some "bob", none, none⟩) 3 exS2

/-! Second family: a and b register and both join "any" (matched into session
S1); a then re-joins the queue without leaving the chat; c registers and joins,
and the matcher pairs c with a into a second session S2. -/

def exT0 : SrvState :=
  connectSocket "c" (connectSocket "b" (connectSocket "a" initState))

def exT2 : SrvState :=
  (authRegister "b" (some ⟨some "db", some "B", none, none⟩) 2
    (authRegister "a" (some ⟨some "da", some "A", none, none⟩) 1 exT0).st).st

def exT3 : SrvState := (queueJoin "a" (some ⟨some "any"⟩) "SX" 3 exT2).st

def exR4 : HandlerResult := queueJoin "b" (some ⟨some "any"⟩) "S1" 4 exT3

def exT5 : SrvState := (queueJoin "a" (some ⟨some "any"⟩) "SY" 5 exR4.st).st

def exT6 : SrvState :=
  (authRegister "c" (some ⟨some "dc", some "C", none, none⟩) 6 exT5).st

def exR7 : HandlerResult := queueJoin "c" (some ⟨some "any"⟩) "S2" 7 exT6

/-- With a and b in session S1, connection c registers a's device "da",
evicting a's profile while S1 stays alive. -/
def exU1 : SrvState :=
  (authRegister "c" (some ⟨some "da", some "Carol", none, none⟩) 8
    (connectSocket "c" exR4.st)).st

/-- With sessions S1 = [b, a] and S2 = [c, a] both alive, a disconnects;
only S1 (found first) is destroyed, leaving S2 with a dead participant. -/
def exV1 : SrvState := (disconnect "a" exR7.st).st

/-! ### Association-list map lemmas -/

theorem mapGet_cons (p : String × α) (m : List (String × α)) (k : String) :
    mapGet (p :: m) k = if p.1 = k then some p.2 else mapGet m k := by
  by_cases h : p.1 = k
  · unfold mapGet
    rw [List.find?_cons_of_pos _ (by simpa using h)]
    simp [h]
  · unfold mapGet
    rw [List.find?_cons_of_neg _ (by simpa using h)]
    simp [h]

theorem mapGet_append (m₁ m₂ : List (String × α)) (k : String) :
    mapGet (m₁ ++ m₂) k = (mapGet m₁ k).or (mapGet m₂ k) := by
  unfold mapGet
  rw [List.find?_append]
  cases h : m₁.find? (fun p => p.1 = k) <;> simp

theorem mapGet_eq_none_iff (m : List (String × α)) (k : String) :
    mapGet m k = none ↔ ∀ p ∈ m, ¬ p.1 = k := by
  unfold mapGet
  simp [List.find?_eq_none]

theorem mapGet_map_update (m : List (String × α)) (k : String) (v : α)
    (h : m.any (fun p => p.1 = k) = true) :
    mapGet (m.map (fun p => if p.1 = k then (k, v) else p)) k = some v := by
  induction m with
  | nil => simp at h
  | cons p t ih =>
    by_cases hp : p.1 = k
    · simp [mapGet_cons, hp]
    · have ht : t.any (fun p => p.1 = k) = true := by
        simp only [List.any_cons, Bool.or_eq_true] at h
        rcases h with h | h
        · exact absurd (by simpa using h) hp
        · exact h
      simp [mapGet_cons, hp, ih ht]

theorem mapGet_map_update_ne (m : List (String × α)) (k k' : String) (v : α)
    (h : ¬ k' = k) :
    mapGet (m.map (fun p => if p.1 = k then (k, v) else p)) k' = mapGet m k' := by
  induction m with
  | nil => rfl
  | cons p t ih =>
    by_cases hp : p.1 = k
    · have hk : ¬ k = k' := fun hkk => h hkk.symm
      have hp' : ¬ p.1 = k' := by rw [hp]; exact hk
      simp [mapGet_cons, hp, hk, hp', ih]
    · rw [List.map_cons, if_neg hp, mapGet_cons, mapGet_cons]
      by_cases hq : p.1 = k' <;> simp [hq, ih]

theorem mapGet_mapSet_self (m : List (String × α)) (k : String) (v : α) :
    mapGet (mapSet m k v) k = some v := by
  unfold mapSet
  by_cases h : m.any (fun p => p.1 = k)
  · rw [if_pos h]
    exact mapGet_map_update m k v h
  · rw [if_neg h, mapGet_append]
    have h1 : mapGet m k = none := by
      rw [mapGet_eq_none_iff]
      intro p hp hk
      exact h (List.any_eq_true.mpr ⟨p, hp, by simpa using hk⟩)
    rw [h1]
    simp [mapGet_cons]

theorem mapGet_mapSet_ne (m : List (String × α)) (k k' : String) (v : α)
    (h : ¬ k' = k) :
    mapGet (mapSet m k v) k' = mapGet m k' := by
  unfold mapSet
  by_cases ha : m.any (fun p => p.1 = k)
  · rw [if_pos ha]
    exact mapGet_map_update_ne m k k' v h
  · rw [if_neg ha, mapGet_append]
    have hk : ¬ k = k' := fun hkk => h hkk.symm
    have h2 : mapGet [(k, v)] k' = none := by
      simp [mapGet_cons, mapGet, hk]
    rw [h2]
    cases mapGet m k' <;> rfl

theorem mapGet_unique (m : List (String × α)) (k : String) (v : α)
    (hk : (m.map Prod.fst).Nodup) (h : mapGet m k = some v) :
    ∀ p ∈ m, p.1 = k → p.2 = v := by
  induction m with
  | nil => intro p hp; simp at hp
  | cons q t ih =>
    rw [List.map_cons, List.nodup_cons] at hk
    rw [mapGet_cons] at h
    intro p hp hpk
    rcases List.mem_cons.mp hp with rfl | hpt
    · rw [if_pos hpk] at h
      exact Option.some.inj h
    · by_cases hq : q.1 = k
      · exfalso
        exact hk.1 (by rw [hq, ← hpk]; exact List.mem_map_of_mem Prod.fst hpt)
      · rw [if_neg hq] at h
        exact ih hk.2 h p hpt hpk

/-- When the key is fresh, `Map.set` appends. -/
theorem mapSet_fresh (m : List (String × α)) (k : String) (v : α)
    (h : mapGet m k = none) :
    mapSet m k v = m ++ [(k, v)] := by
  unfold mapSet
  rw [if_neg]
  intro ha
  rcases List.any_eq_true.mp ha with ⟨p, hp, hpk⟩
  exact (mapGet_eq_none_iff m k).mp h p hp (by simpa using hpk)

/-! ### Queue lemmas -/

theorem queueIds_removeFromQueue_sublist (s : String) (st : SrvState) :
    (queueIds (removeFromQueue s st)).Sublist (queueIds st) := by
  unfold queueIds removeFromQueue
  simp only [List.map_append, List.append_assoc]
  exact (((List.filter_sublist _).map _).append
    (((List.filter_sublist _).map _).append ((List.filter_sublist _).map _)))

theorem not_mem_queueIds_removeFromQueue (s : String) (st : SrvState) :
    ¬ s ∈ queueIds (removeFromQueue s st) := by
  intro hmem
  simp only [queueIds, removeFromQueue, List.map_append, List.mem_append,
    List.mem_map] at hmem
  rcases hmem with (⟨e, he, heq⟩ | ⟨e, he, heq⟩) | ⟨e, he, heq⟩ <;>
    exact absurd heq (by simpa using List.of_mem_filter he)

theorem not_mem_queueIds_of_sublist {s : String} {st st' : SrvState}
    (hsub : (queueIds st').Sublist (queueIds st)) (h : ¬ s ∈ queueIds st) :
    ¬ s ∈ queueIds st' :=
  fun hmem => h (hsub.mem hmem)

theorem validQueueType_cases {q : String} (h : validQueueType q = true) :
    q = "any" ∨ q = "male" ∨ q = "female" := by
  unfold validQueueType at h
  have h2 : (q = "any" ∨ q = "male") ∨ q = "female" := by simpa using h
  tauto

theorem nodup_insert_middle (l₁ l₂ : List α) (x : α)
    (hn : (l₁ ++ l₂).Nodup) (hx : ¬ x ∈ l₁ ++ l₂) :
    (l₁ ++ x :: l₂).Nodup :=
  (List.Perm.nodup_iff List.perm_middle).mpr (List.nodup_cons.mpr ⟨hx, hn⟩)

theorem nodup_queueIds_pushQueue (st : SrvState) (qt : String) (e : QueueEntry)
    (hn : (queueIds st).Nodup) (he : ¬ e.socketId ∈ queueIds st)
    (hv : validQueueType qt = true) :
    (queueIds (pushQueue st qt e)).Nodup := by
  rcases validQueueType_cases hv with rfl | rfl | rfl
  · have h := nodup_insert_middle (st.queueAny.map QueueEntry.socketId)
      (st.queueMale.map QueueEntry.socketId ++ st.queueFemale.map QueueEntry.socketId)
      e.socketId
      (by simpa [queueIds, List.append_assoc] using hn)
      (by simpa [queueIds, List.append_assoc] using he)
    simpa [queueIds, pushQueue, List.append_assoc] using h
  · have h := nodup_insert_middle
      (st.queueAny.map QueueEntry.socketId ++ st.queueMale.map QueueEntry.socketId)
      (st.queueFemale.map QueueEntry.socketId)
      e.socketId
      (by simpa [queueIds, List.append_assoc] using hn)
      (by simpa [queueIds, List.append_assoc] using he)
    simpa [queueIds, pushQueue, List.append_assoc] using h
  · have h := nodup_insert_middle
      (st.queueAny.map QueueEntry.socketId ++ st.queueMale.map QueueEntry.socketId ++
        st.queueFemale.map QueueEntry.socketId) []
      e.socketId
      (by simpa [queueIds, List.append_assoc] using hn)
      (by simpa [queueIds, List.append_assoc] using he)
    simpa [queueIds, pushQueue, List.append_assoc] using h

theorem queueIds_authRegister (sid : String) (d : Option RegisterData) (now : Nat)
    (st : SrvState) :
    queueIds (authRegister sid d now st).st = queueIds st := by
  unfold authRegister
  rcases d with _ | d
  · rfl
  · dsimp only
    split
    · rfl
    · split <;> rfl

theorem queueStatus_st (sid : String) (st : SrvState) :
    (queueStatus sid st).st = st := by
  unfold queueStatus
  split
  · rfl
  · split
    · rfl
    · split <;> rfl

theorem chatSend_st (sid : String) (d : Option ChatSendData) (fresh : String)
    (now : Nat) (st : SrvState) :
    (chatSend sid d fresh now st).st = st := by
  unfold chatSend
  split
  · rfl
  · split
    · rfl
    · split
      · rfl
      · rfl

theorem queueIds_chatLeave (sid : String) (st : SrvState) :
    queueIds (chatLeave sid st).st = queueIds st := by
  unfold chatLeave
  split <;> rfl

theorem nodup_queueIds_tryMatch (sid qt fresh : String) (now : Nat) (st : SrvState)
    (hn : (queueIds st).Nodup) :
    (queueIds (tryMatch sid qt fresh now st).1).Nodup := by
  unfold tryMatch
  split
  · exact hn
  · split
    · exact hn
    · dsimp only
      exact (queueIds_removeFromQueue_sublist _ _).nodup
        ((queueIds_removeFromQueue_sublist _ _).nodup hn)

theorem nodup_queueIds_queueJoin (sid : String) (d : Option QueueJoinData)
    (fresh : String) (now : Nat) (st : SrvState)
    (hn : (queueIds st).Nodup) :
    (queueIds (queueJoin sid d fresh now st).st).Nodup := by
  unfold queueJoin
  split
  · exact hn
  · dsimp only
    split
    case isTrue hv =>
      have h1 : (queueIds (removeFromQueue sid st)).Nodup :=
        (queueIds_removeFromQueue_sublist sid st).nodup hn
      have h2 : ¬ sid ∈ queueIds (removeFromQueue sid st) :=
        not_mem_queueIds_removeFromQueue sid st
      exact nodup_queueIds_tryMatch _ _ _ _ _
        (nodup_queueIds_pushQueue _ _ _ h1 h2 hv)
    case isFalse =>
      exact (queueIds_removeFromQueue_sublist sid st).nodup hn

theorem queueIds_authLogout_sublist (sid : String) (st : SrvState) :
    (queueIds (authLogout sid st).st).Sublist (queueIds st) :=
  queueIds_removeFromQueue_sublist sid st

theorem queueIds_queueLeave_sublist (sid : String) (st : SrvState) :
    (queueIds (queueLeave sid st).st).Sublist (queueIds st) :=
  queueIds_removeFromQueue_sublist sid st

theorem queueIds_disconnect_sublist (sid : String) (st : SrvState) :
    (queueIds (disconnect sid st).st).Sublist (queueIds st) := by
  unfold disconnect
  dsimp only
  split
  · exact queueIds_removeFromQueue_sublist sid st
  · exact queueIds_removeFromQueue_sublist sid _

/-! ### Claim theorems -/

/-- C3 (amended): every modelled operation — socket connect, auth:register,
auth:logout, queue:join (with its inline matcher), queue:leave, queue:status,
chat:send, chat:leave and disconnect — preserves the invariant that a
connection id occupies at most one preference queue, and at most one entry
within it (the socket ids across the three queues are duplicate-free). The
session-disjointness half of the original claim fails, see the
counterexample. -/
theorem queue_exclusive_preserved {st st' : SrvState} (h : Step st st')
    (hn : (queueIds st).Nodup) : (queueIds st').Nodup := by
  cases h with
  | connect sid st => exact hn
  | register sid data now st => rw [queueIds_authRegister]; exact hn
  | logout sid st => exact (queueIds_authLogout_sublist sid st).nodup hn
  | join sid data fresh now st => exact nodup_queueIds_queueJoin sid data fresh now st hn
  | leave sid st => exact (queueIds_queueLeave_sublist sid st).nodup hn
  | status sid st => rw [queueStatus_st]; exact hn
  | send sid data fresh now st => rw [chatSend_st]; exact hn
  | chatLv sid st => rw [queueIds_chatLeave]; exact hn
  | disc sid st => exact (queueIds_disconnect_sublist sid st).nodup hn

/-- C3 witness: a concrete queue:join step applied through the invariant
theorem. -/
theorem queue_exclusive_preserved_witness :
    (queueIds (queueJoin "a" (some ⟨some "any"⟩) "SW" 9 exT2).st).Nodup :=
  queue_exclusive_preserved (Step.join "a" (some ⟨some "any"⟩) "SW" 9 exT2)
    (by rw [show queueIds exT2 = [] from rfl]; exact List.nodup_nil)

/-- C3 counterexample: after a and b are matched into session S1, a re-issues
queue:join; the handler does not check session membership, so a ends up both
in the any queue and still a participant of the live session S1 — the claimed
invariant that a session participant appears in no queue is violated by a
reachable state. -/
theorem queue_exclusivity_counterexample :
    exT5.queueAny.map QueueEntry.socketId = ["a"] ∧
    getSessionBySocket "a" exT5 = some ⟨"S1", ["b", "a"], 4⟩ := by decide

/-- C5 (code_bug): immediately after the matcher pairs a and b (removing both
from every queue), queue:status for either of them still reports
inQueue:true — with queueType "any", position 0 and totalInQueue 0 — because
tryMatch never resets `socket.data.inQueue`; the claimed `{inQueue:false}`
response is not produced. -/
theorem queue_status_after_match_bug :
    queueIds exR4.st = [] ∧
    (queueStatus "a" exR4.st).emits = [Emit.queueStatusSome "a" "any" 0 0] ∧
    (queueStatus "b" exR4.st).emits = [Emit.queueStatusSome "b" "any" 0 0] := by
  decide

/-- C6 (amended): the handlers have no boundary containment; exactly the
following payloads make a handler throw an escaping TypeError instead of
answering: auth:register with a missing payload object; queue:join from a
registered user whose effective queue type is not one of any/male/female; and
chat:send from a connection in a session whose profile is missing or whose
payload object is missing. All other inputs of these handlers complete
without throwing. -/
theorem handler_error_containment (st : SrvState) (sid fresh : String) (now : Nat) :
    ((authRegister sid none now st).err.isSome = true) ∧
    (∀ d : Option QueueJoinData,
      ((queueJoin sid d fresh now st).err.isSome = true ↔
        ((mapGet st.connectedUsers sid).isSome = true ∧
          validQueueType (jsOr (d.bind QueueJoinData.preferredGender) "any") = false))) ∧
    (∀ d : Option ChatSendData,
      ((chatSend sid d fresh now st).err.isSome = true ↔
        ((getSessionBySocket sid st).isSome = true ∧
          (mapGet st.connectedUsers sid = none ∨ d = none)))) := by
  refine ⟨rfl, ?_, ?_⟩
  · intro d
    unfold queueJoin
    cases hu : mapGet st.connectedUsers sid with
    | none => simp
    | some user =>
      dsimp only
      have hpg : (match d with
          | none => none
          | some x => x.preferredGender) = d.bind QueueJoinData.preferredGender := by
        cases d <;> rfl
      rw [hpg]
      by_cases hv : validQueueType (jsOr (d.bind QueueJoinData.preferredGender) "any") = true
      · rw [if_pos hv]
        simp [hv]
      · rw [if_neg hv]
        simpa using hv
  · intro d
    unfold chatSend
    cases hs : getSessionBySocket sid st with
    | none => simp
    | some sess =>
      cases hu : mapGet st.connectedUsers sid with
      | none => simp
      | some user =>
        cases d with
        | none => simp
        | some dd => simp

/-- C6 counterexample: a registered user's queue:join with preferredGender
"robot" throws (no success:false acknowledgment is sent), and a chat:send with
a missing payload from a user in a session throws likewise. -/
theorem error_containment_counterexample :
    (queueJoin "a" (some ⟨some "robot"⟩) "SZ" 9 exT2).err =
      some "TypeError: matchingQueue[queueType] is undefined" ∧
    (queueJoin "a" (some ⟨some "robot"⟩) "SZ" 9 exT2).emits = [] ∧
    (chatSend "b" none "m9" 9 exR4.st).err =
      some "TypeError: cannot read message of undefined" ∧
    (chatSend "b" none "m9" 9 exR4.st).emits = [] := by decide

/-- C7 (amended): auth:register rejects synchronously with a descriptive error
and mutates nothing when deviceId or nickname is missing (or empty, the JS
falsy check); nickname length is NOT validated — see the counterexample. -/
theorem register_missing_fields_rejected (st : SrvState) (sid : String)
    (d : RegisterData) (now : Nat)
    (h : ¬ (strTruthy d.deviceId = true ∧ strTruthy d.nickname = true)) :
    authRegister sid (some d) now st =
      ⟨st, [Emit.registerErr sid "Device ID and nickname are required"], none⟩ := by
  unfold authRegister
  exact if_pos h

/-- C7 witness. -/
theorem register_missing_fields_rejected_witness :
    (¬ (strTruthy (none : Option String) = true ∧ strTruthy (some "bob") = true)) ∧
    authRegister "s1" (some ⟨none, some "bob", none, none⟩) 0 initState =
      ⟨initState, [Emit.registerErr "s1" "Device ID and nickname are required"], none⟩ :=
  ⟨by decide,
   register_missing_fields_rejected initState "s1" ⟨none, some "bob", none, none⟩ 0
     (by decide)⟩

/-- C7 counterexample: a registration with the 1-character nickname "x"
(outside the claimed 2–20 bound) is accepted and stored; no length validation
exists in auth:register. -/
theorem register_no_length_validation :
    (authRegister "c1" (some ⟨some "d", some "x", none, none⟩) 1 exS0).emits =
      [Emit.registerOk "c1" ⟨"c1", "d", "x", "", "unspecified", 1⟩] ∧
    mapGet (authRegister "c1" (some ⟨some "d", some "x", none, none⟩) 1
      exS0).st.connectedUsers "c1" =
      some ⟨"c1", "d", "x", "", "unspecified", 1⟩ ∧
    "x".length = 1 := by decide

/-- C8 (confirmed): auth:register fails with the NicknameTaken error exactly
when some other currently connected user with a different socket and a
different device holds the same nickname case-insensitively; on that failure
the state is untouched; and a repeated registration from the same connection
with its own deviceId and nickname succeeds, replacing the stored Profile. -/
theorem register_nickname_conflict_iff (st : SrvState) (sid : String)
    (d : RegisterData) (now : Nat) (dev nick : String)
    (hdev : d.deviceId = some dev) (hdevne : ¬ dev = "")
    (hnick : d.nickname = some nick) (hnickne : ¬ nick = "") :
    ((authRegister sid (some d) now st).emits =
        [Emit.registerErr sid "This nickname is already in use"] ↔
      nicknameConflict st sid dev nick = true) ∧
    (nicknameConflict st sid dev nick = true →
      (authRegister sid (some d) now st).st = st) ∧
    (∀ u0 : UserData, mapGet st.connectedUsers sid = some u0 →
      u0.deviceId = dev → u0.nickname = nick →
      nicknameConflict st sid dev nick = false →
      (authRegister sid (some d) now st).emits =
        [Emit.registerOk sid
          ⟨sid, dev, nick, jsOr d.bio "", jsOr d.gender "unspecified", now⟩] ∧
      mapGet (authRegister sid (some d) now st).st.connectedUsers sid =
        some ⟨sid, dev, nick, jsOr d.bio "", jsOr d.gender "unspecified", now⟩) := by
  have hd : strTruthy d.deviceId = true := by rw [hdev]; simpa [strTruthy] using hdevne
  have hn : strTruthy d.nickname = true := by rw [hnick]; simpa [strTruthy] using hnickne
  unfold authRegister
  dsimp only
  rw [if_neg (not_not_intro ⟨hd, hn⟩), hdev, hnick]
  simp only [Option.getD_some]
  have hconn : nicknameConflict st sid dev nick = true ↔
      ((mapValues st.connectedUsers).find? (fun u =>
        jsToLower u.nickname = jsToLower nick ∧ ¬ u.socketId = sid ∧
        ¬ u.deviceId = dev)).isSome = true := by
    unfold nicknameConflict
    rw [List.any_eq_true, List.find?_isSome]
  cases hf : (mapValues st.connectedUsers).find? (fun u =>
      jsToLower u.nickname = jsToLower nick ∧ ¬ u.socketId = sid ∧
      ¬ u.deviceId = dev) with
  | some u =>
    have hc : nicknameConflict st sid dev nick = true :=
      hconn.mpr (by rw [hf]; rfl)
    refine ⟨iff_of_true rfl hc, fun _ => rfl, ?_⟩
    intro u0 _ _ _ hfalse
    rw [hc] at hfalse
    cases hfalse
  | none =>
    have hc : ¬ nicknameConflict st sid dev nick = true := by
      intro h
      have h2 := hconn.mp h
      rw [hf] at h2
      cases h2
    refine ⟨iff_of_false (by simp) hc, fun h => absurd h hc, ?_⟩
    intro u0 hu0 hdev0 hnick0 hfalse
    exact ⟨rfl, mapGet_mapSet_self _ _ _⟩

/-- C8 witness: registering "a" from connection c (device dc) while connection
a (device da) holds nickname "A" is rejected as NicknameTaken. -/
theorem register_nickname_conflict_iff_witness :
    (authRegister "c" (some ⟨some "dc", some "a", none, none⟩) 9 exT2).emits =
      [Emit.registerErr "c" "This nickname is already in use"] :=
  (register_nickname_conflict_iff exT2 "c" ⟨some "dc", some "a", none, none⟩ 9
    "dc" "a" rfl (by decide) rfl (by decide)).1.mpr (by decide)

/-- C1 (amended): a successful register from connection `sid` with device
`dev` removes the Profile of every other connection holding `dev` (here `c1`)
and stores `sid`'s Profile — but it does NOT touch the queues, the flags or
the sessions: the evicted connection keeps any queue entries and any live
Session (see the counterexample for the original claim). -/
theorem register_eviction_scope (st : SrvState) (sid c1 : String)
    (d : RegisterData) (now : Nat) (dev nick : String) (u1 : UserData)
    (hdev : d.deviceId = some dev) (hdevne : ¬ dev = "")
    (hnick : d.nickname = some nick) (hnickne : ¬ nick = "")
    (hnc : nicknameConflict st sid dev nick = false)
    (hkeys : (st.connectedUsers.map Prod.fst).Nodup)
    (hc1 : mapGet st.connectedUsers c1 = some u1)
    (hc1dev : u1.deviceId = dev)
    (hne : ¬ c1 = sid) :
    mapGet (authRegister sid (some d) now st).st.connectedUsers c1 = none ∧
    mapGet (authRegister sid (some d) now st).st.connectedUsers sid =
      some ⟨sid, dev, nick, jsOr d.bio "", jsOr d.gender "unspecified", now⟩ ∧
    (authRegister sid (some d) now st).st.queueAny = st.queueAny ∧
    (authRegister sid (some d) now st).st.queueMale = st.queueMale ∧
    (authRegister sid (some d) now st).st.queueFemale = st.queueFemale ∧
    (authRegister sid (some d) now st).st.activeSessions = st.activeSessions ∧
    (authRegister sid (some d) now st).emits =
      [Emit.registerOk sid
        ⟨sid, dev, nick, jsOr d.bio "", jsOr d.gender "unspecified", now⟩] := by
  have hd : strTruthy d.deviceId = true := by rw [hdev]; simpa [strTruthy] using hdevne
  have hn : strTruthy d.nickname = true := by rw [hnick]; simpa [strTruthy] using hnickne
  unfold authRegister
  dsimp only
  rw [if_neg (not_not_intro ⟨hd, hn⟩), hdev, hnick]
  simp only [Option.getD_some]
  have hfind : (mapValues st.connectedUsers).find? (fun u =>
      jsToLower u.nickname = jsToLower nick ∧ ¬ u.socketId = sid ∧
      ¬ u.deviceId = dev) = none := by
    rw [List.find?_eq_none]
    intro x hx hpx
    have hex : nicknameConflict st sid dev nick = true := by
      unfold nicknameConflict
      rw [List.any_eq_true]
      exact ⟨x, hx, hpx⟩
    rw [hnc] at hex
    cases hex
  rw [hfind]
  dsimp only
  have hev : mapGet (st.connectedUsers.filter (fun p =>
      ¬ (p.2.deviceId = dev ∧ ¬ p.1 = sid))) c1 = none := by
    rw [mapGet_eq_none_iff]
    intro p hp hpk
    have hmem : p ∈ st.connectedUsers := List.mem_of_mem_filter hp
    have hpv : p.2 = u1 := mapGet_unique st.connectedUsers c1 u1 hkeys hc1 p hmem hpk
    have hpred : ¬ (p.2.deviceId = dev ∧ ¬ p.1 = sid) :=
      of_decide_eq_true (List.mem_filter.mp hp).2
    exact hpred ⟨by rw [hpv]; exact hc1dev, by rw [hpk]; exact hne⟩
  refine ⟨?_, mapGet_mapSet_self _ _ _, rfl, rfl, rfl, rfl, rfl⟩
  rw [mapGet_mapSet_ne _ _ _ _ hne]
  exact hev

/-- C1 witness: c2 registering device "d" evicts c1's Profile. -/
theorem register_eviction_scope_witness :
    mapGet (authRegister "c2" (some ⟨some "d", some "bob", none, none⟩) 3
      exS2).st.connectedUsers "c1" = none :=
  (register_eviction_scope exS2 "c2" "c1" ⟨some "d", some "bob", none, none⟩ 3
    "d" "bob" ⟨"c1", "d", "alice", "", "unspecified", 1⟩ rfl (by decide) rfl
    (by decide) (by decide)
    (by rw [show exS2.connectedUsers.map Prod.fst = ["c1"] from rfl]
        exact List.nodup_singleton "c1")
    (by decide) rfl (by decide)).1

/-- C1 counterexample: c2's register for device "d" succeeds and evicts c1's
Profile, yet c1 is still sitting in the any queue; likewise, after c registers
a's device "da", a's Profile is gone but a is still a participant of the live
session S1 — the claimed queue and session cleanup does not happen. -/
theorem register_eviction_counterexample :
    exR3.emits = [Emit.registerOk "c2" ⟨"c2", "d", "bob", "", "unspecified", 3⟩] ∧
    exR3.st.queueAny.map QueueEntry.socketId = ["c1"] ∧
    mapGet exR3.st.connectedUsers "c1" = none ∧
    mapGet exU1.connectedUsers "a" = none ∧
    getSessionBySocket "a" exU1 = some ⟨"S1", ["b", "a"], 4⟩ := by decide

/-! ### Matcher auxiliary lemmas -/

theorem pushQueue_connectedUsers (st : SrvState) (qt : String) (e : QueueEntry) :
    (pushQueue st qt e).connectedUsers = st.connectedUsers := by
  unfold pushQueue
  split_ifs <;> rfl

theorem pushQueue_activeSessions (st : SrvState) (qt : String) (e : QueueEntry) :
    (pushQueue st qt e).activeSessions = st.activeSessions := by
  unfold pushQueue
  split_ifs <;> rfl

theorem pushQueue_getQueue_self (st : SrvState) (qt : String) (e : QueueEntry)
    (hv : validQueueType qt = true) :
    (pushQueue st qt e).getQueue qt = st.getQueue qt ++ [e] := by
  rcases validQueueType_cases hv with rfl | rfl | rfl <;> rfl

theorem setFlags_connectedUsers (st : SrvState) (f : List (String × String)) :
    ({ st with inQueueFlags := f } : SrvState).connectedUsers = st.connectedUsers :=
  rfl

theorem setFlags_activeSessions (st : SrvState) (f : List (String × String)) :
    ({ st with inQueueFlags := f } : SrvState).activeSessions = st.activeSessions :=
  rfl

theorem getQueue_setFlags (st : SrvState) (f : List (String × String)) (qt : String) :
    SrvState.getQueue { st with inQueueFlags := f } qt = st.getQueue qt := rfl

theorem tryMatchPool_setFlags (st : SrvState) (f : List (String × String))
    (sid pg g : String) :
    tryMatchPool { st with inQueueFlags := f } sid pg g =
      tryMatchPool st sid pg g := rfl

/-- Re-inserting the joiner does not change the matcher pool: the fresh entry
carries the joiner's own socket id, which the pool always filters out, and the
prior removal only dropped entries with that same id. -/
theorem tryMatchPool_requeue (st : SrvState) (sid pg g : String) (e : QueueEntry)
    (he : e.socketId = sid) (hv : validQueueType pg = true) :
    tryMatchPool (pushQueue (removeFromQueue sid st) pg e) sid pg g =
      tryMatchPool st sid pg g := by
  rcases validQueueType_cases hv with rfl | rfl | rfl <;>
    unfold tryMatchPool SrvState.getQueue pushQueue removeFromQueue <;>
    split_ifs <;>
    simp_all [List.filter_append, List.filter_filter, he]

/-- queue:join for a registered user with a valid non-empty preference:
removal, push, flag update, acknowledgment, then the matcher. -/
theorem queueJoin_eq (sid pg fresh : String) (now : Nat) (st : SrvState)
    (user : UserData) (d : QueueJoinData)
    (hu : mapGet st.connectedUsers sid = some user)
    (hd : d.preferredGender = some pg)
    (hne : ¬ pg = "")
    (hv : validQueueType pg = true) :
    queueJoin sid (some d) fresh now st =
      (let st2 := pushQueue (removeFromQueue sid st) pg ⟨sid, user, pg, now⟩
       let st3 := { st2 with inQueueFlags := mapSet st2.inQueueFlags sid pg }
       let r := tryMatch sid pg fresh now st3
       ⟨r.1, [Emit.queueJoinOk sid pg (st2.getQueue pg).length] ++ r.2, none⟩) := by
  unfold queueJoin
  rw [hu]
  dsimp only
  rw [hd]
  unfold jsOr
  dsimp only
  rw [if_neg hne, if_pos hv]

/-- tryMatch once the joiner's profile lookup is resolved. -/
theorem tryMatch_eq (sid qt fresh : String) (now : Nat) (st : SrvState)
    (user : UserData)
    (hu : mapGet st.connectedUsers sid = some user) :
    tryMatch sid qt fresh now st =
      (match tryMatchPool st sid qt user.gender with
       | [] => (st, [])
       | m :: _ =>
         ({ removeFromQueue m.socketId (removeFromQueue sid st) with
              activeSessions := mapSet (removeFromQueue m.socketId
                (removeFromQueue sid st)).activeSessions fresh
                ⟨fresh, [sid, m.socketId], now⟩ },
          [Emit.matchFound sid fresh m.user.nickname m.user.bio] ++
            (if st.connectedSockets.contains m.socketId then
              [Emit.matchFound m.socketId fresh user.nickname user.bio]
            else []))) := by
  unfold tryMatch
  rw [hu]

/-- C2 (confirmed): the matcher pool is exactly what the spec describes — all
three queues for preference "any", otherwise the any queue plus the queue
named after the joining user's OWN gender, self excluded, any-entries first,
FIFO within each queue; the selected candidate is the head of that
concatenation; an empty pool leaves the joiner queued, creates no session, and
nothing beyond the queue-position acknowledgment is emitted. -/
theorem queue_join_matching_rule (st : SrvState) (sid pg fresh : String)
    (now : Nat) (user : UserData) (d : QueueJoinData)
    (hu : mapGet st.connectedUsers sid = some user)
    (hd : d.preferredGender = some pg)
    (hv : validQueueType pg = true) :
    (∀ (st2 : SrvState) (g : String),
        tryMatchPool st2 sid pg g = specEligiblePool st2 sid pg g) ∧
    (tryMatchPool (pushQueue (removeFromQueue sid st) pg ⟨sid, user, pg, now⟩)
        sid pg user.gender = specEligiblePool st sid pg user.gender) ∧
    (specEligiblePool st sid pg user.gender = [] →
      (queueJoin sid (some d) fresh now st).emits =
        [Emit.queueJoinOk sid pg
          (((removeFromQueue sid st).getQueue pg).length + 1)] ∧
      (queueJoin sid (some d) fresh now st).st.getQueue pg =
        (removeFromQueue sid st).getQueue pg ++ [⟨sid, user, pg, now⟩] ∧
      (queueJoin sid (some d) fresh now st).st.activeSessions =
        st.activeSessions) ∧
    (∀ (m : QueueEntry) (rest : List QueueEntry),
      specEligiblePool st sid pg user.gender = m :: rest →
      mapGet (queueJoin sid (some d) fresh now st).st.activeSessions fresh =
        some ⟨fresh, [sid, m.socketId], now⟩ ∧
      (queueJoin sid (some d) fresh now st).emits.take 2 =
        [Emit.queueJoinOk sid pg
            (((removeFromQueue sid st).getQueue pg).length + 1),
         Emit.matchFound sid fresh m.user.nickname m.user.bio]) := by
  have hne : ¬ pg = "" := by
    rcases validQueueType_cases hv with rfl | rfl | rfl <;> decide
  have hu3 : mapGet ({ pushQueue (removeFromQueue sid st) pg
      (⟨sid, user, pg, now⟩ : QueueEntry) with
      inQueueFlags := mapSet (pushQueue (removeFromQueue sid st) pg
        (⟨sid, user, pg, now⟩ : QueueEntry)).inQueueFlags sid pg
      } : SrvState).connectedUsers sid = some user := by
    rw [setFlags_connectedUsers, pushQueue_connectedUsers]
    exact hu
  refine ⟨fun _ _ => rfl, ?_, ?_, ?_⟩
  · rw [tryMatchPool_requeue st sid pg user.gender ⟨sid, user, pg, now⟩ rfl hv]
    rfl
  · intro hpool
    rw [queueJoin_eq sid pg fresh now st user d hu hd hne hv]
    dsimp only
    rw [tryMatch_eq sid pg fresh now _ user hu3]
    have hp3 : tryMatchPool ({ pushQueue (removeFromQueue sid st) pg
        (⟨sid, user, pg, now⟩ : QueueEntry) with
        inQueueFlags := mapSet (pushQueue (removeFromQueue sid st) pg
          (⟨sid, user, pg, now⟩ : QueueEntry)).inQueueFlags sid pg
        } : SrvState) sid pg user.gender = [] := by
      rw [tryMatchPool_setFlags,
        tryMatchPool_requeue st sid pg user.gender ⟨sid, user, pg, now⟩ rfl hv]
      exact hpool
    rw [hp3]
    refine ⟨?_, ?_, ?_⟩
    · show [Emit.queueJoinOk sid pg
          ((pushQueue (removeFromQueue sid st) pg
            (⟨sid, user, pg, now⟩ : QueueEntry)).getQueue pg).length] ++ [] = _
      rw [pushQueue_getQueue_self _ _ _ hv]
      simp
    · show SrvState.getQueue { pushQueue (removeFromQueue sid st) pg
          (⟨sid, user, pg, now⟩ : QueueEntry) with
          inQueueFlags := mapSet (pushQueue (removeFromQueue sid st) pg
            (⟨sid, user, pg, now⟩ : QueueEntry)).inQueueFlags sid pg } pg = _
      rw [getQueue_setFlags, pushQueue_getQueue_self _ _ _ hv]
    · show ({ pushQueue (removeFromQueue sid st) pg
          (⟨sid, user, pg, now⟩ : QueueEntry) with
          inQueueFlags := mapSet (pushQueue (removeFromQueue sid st) pg
            (⟨sid, user, pg, now⟩ : QueueEntry)).inQueueFlags sid pg
          } : SrvState).activeSessions = st.activeSessions
      rw [setFlags_activeSessions, pushQueue_activeSessions]
      rfl
  · intro m rest hpool
    rw [queueJoin_eq sid pg fresh now st user d hu hd hne hv]
    dsimp only
    rw [tryMatch_eq sid pg fresh now _ user hu3]
    have hp3 : tryMatchPool ({ pushQueue (removeFromQueue sid st) pg
        (⟨sid, user, pg, now⟩ : QueueEntry) with
        inQueueFlags := mapSet (pushQueue (removeFromQueue sid st) pg
          (⟨sid, user, pg, now⟩ : QueueEntry)).inQueueFlags sid pg
        } : SrvState) sid pg user.gender = m :: rest := by
      rw [tryMatchPool_setFlags,
        tryMatchPool_requeue st sid pg user.gender ⟨sid, user, pg, now⟩ rfl hv]
      exact hpool
    rw [hp3]
    refine ⟨?_, ?_⟩
    · exact mapGet_mapSet_self _ _ _
    · show (Emit.queueJoinOk sid pg
          ((pushQueue (removeFromQueue sid st) pg
            (⟨sid, user, pg, now⟩ : QueueEntry)).getQueue pg).length ::
          Emit.matchFound sid fresh m.user.nickname m.user.bio :: _).take 2 = _
      rw [pushQueue_getQueue_self _ _ _ hv]
      simp

/-- C2 witness: b joining "any" while a waits in the any queue creates session
S1 with participants [b, a]. -/
theorem queue_join_matching_rule_witness :
    mapGet (queueJoin "b" (some ⟨some "any"⟩) "S1" 4 exT3).st.activeSessions
      "S1" = some ⟨"S1", ["b", "a"], 4⟩ :=
  ((queue_join_matching_rule exT3 "b" "any" "S1" 4
      ⟨"b", "db", "B", "", "unspecified", 2⟩ ⟨some "any"⟩ (by decide) rfl
      (by decide)).2.2.2
    ⟨"a", ⟨"a", "da", "A", "", "unspecified", 1⟩, "any", 3⟩ [] (by decide)).1

theorem getSessionBySocket_update (st0 : SrvState) (s : List (String × Session))
    (sid : String) :
    getSessionBySocket sid { st0 with activeSessions := s } =
      (s.find? (fun p => p.2.participants.contains sid)).map (fun p => p.2) := rfl

/-- C4 (amended): whenever the matcher finds a candidate for a joining user,
both connections are removed from all three queues, exactly one new Session
(with the fresh id) is appended whose participants are exactly the joiner and
the candidate, and a match:found carrying only the other party's nickname and
bio goes to each of the two connections — PROVIDED neither party already
participates in a session, the generated session id is unused, and the
candidate's socket is still connected; without the first proviso the
participant-indexed lookup can return an older session instead (see the
counterexample). -/
theorem match_creates_session (st : SrvState) (sid qt fresh : String) (now : Nat)
    (user : UserData) (m : QueueEntry) (rest : List QueueEntry)
    (hu : mapGet st.connectedUsers sid = some user)
    (hpool : tryMatchPool st sid qt user.gender = m :: rest)
    (hnos1 : getSessionBySocket sid st = none)
    (hnos2 : getSessionBySocket m.socketId st = none)
    (hfresh : mapGet st.activeSessions fresh = none)
    (hconn : st.connectedSockets.contains m.socketId = true) :
    (¬ sid ∈ queueIds (tryMatch sid qt fresh now st).1) ∧
    (¬ m.socketId ∈ queueIds (tryMatch sid qt fresh now st).1) ∧
    (tryMatch sid qt fresh now st).1.activeSessions =
      st.activeSessions ++ [(fresh, ⟨fresh, [sid, m.socketId], now⟩)] ∧
    getSessionBySocket sid (tryMatch sid qt fresh now st).1 =
      some ⟨fresh, [sid, m.socketId], now⟩ ∧
    getSessionBySocket m.socketId (tryMatch sid qt fresh now st).1 =
      some ⟨fresh, [sid, m.socketId], now⟩ ∧
    (tryMatch sid qt fresh now st).2 =
      [Emit.matchFound sid fresh m.user.nickname m.user.bio,
       Emit.matchFound m.socketId fresh user.nickname user.bio] := by
  rw [tryMatch_eq sid qt fresh now st user hu, hpool]
  dsimp only
  have hsess : mapSet (removeFromQueue m.socketId
      (removeFromQueue sid st)).activeSessions fresh
      ⟨fresh, [sid, m.socketId], now⟩ =
      st.activeSessions ++ [(fresh, ⟨fresh, [sid, m.socketId], now⟩)] := by
    have hrm : (removeFromQueue m.socketId
        (removeFromQueue sid st)).activeSessions = st.activeSessions := rfl
    rw [hrm, mapSet_fresh _ _ _ hfresh]
  have hfind1 : st.activeSessions.find?
      (fun p => p.2.participants.contains sid) = none := by
    have h := hnos1
    unfold getSessionBySocket at h
    exact (Option.map_eq_none').mp h
  have hfind2 : st.activeSessions.find?
      (fun p => p.2.participants.contains m.socketId) = none := by
    have h := hnos2
    unfold getSessionBySocket at h
    exact (Option.map_eq_none').mp h
  refine ⟨?_, ?_, ?_, ?_, ?_, ?_⟩
  · exact not_mem_queueIds_of_sublist
      (queueIds_removeFromQueue_sublist m.socketId (removeFromQueue sid st))
      (not_mem_queueIds_removeFromQueue sid st)
  · exact not_mem_queueIds_removeFromQueue m.socketId (removeFromQueue sid st)
  · exact hsess
  · rw [getSessionBySocket_update, hsess, List.find?_append, hfind1]
    rw [List.find?_cons_of_pos _ (by simp)]
    rfl
  · rw [getSessionBySocket_update, hsess, List.find?_append, hfind2]
    rw [List.find?_cons_of_pos _ (by simp)]
    rfl
  · rw [if_pos hconn]
    rfl

/-- C4 witness: the concrete any/any match of b against waiting a. -/
theorem match_creates_session_witness :
    (tryMatch "b" "any" "S1" 4 exT3).2 =
      [Emit.matchFound "b" "S1" "A" "", Emit.matchFound "a" "S1" "B" ""] :=
  (match_creates_session exT3 "b" "any" "S1" 4
    ⟨"b", "db", "B", "", "unspecified", 2⟩
    ⟨"a", ⟨"a", "da", "A", "", "unspecified", 1⟩, "any", 3⟩ [] (by decide)
    (by decide) rfl rfl rfl (by decide)).2.2.2.2.2

/-- C4 counterexample: with a still in the earlier session S1, the matcher
pairs c with a into S2; the participant-indexed lookup then returns S2 for c
but S1 for a — not the same Session for both, contradicting the claim. -/
theorem match_symmetry_counterexample :
    mapGet exR7.st.activeSessions "S2" = some ⟨"S2", ["c", "a"], 7⟩ ∧
    getSessionBySocket "c" exR7.st = some ⟨"S2", ["c", "a"], 7⟩ ∧
    getSessionBySocket "a" exR7.st = some ⟨"S1", ["b", "a"], 4⟩ := by decide

/-- C9 (amended): a chat:send from a connection with an active Session, a
stored Profile and a present payload delivers exactly one chat:message to each
of the two (distinct, connected) participants, the sender included, with
identical id, sender (the sender's current nickname), content and timestamp
and isOwn = (recipient = sender); a chat:send with no active Session is
answered with the NotInSession acknowledgment and mutates nothing. Without the
Profile or payload the handler throws instead (see the counterexample). -/
theorem chat_send_delivery (st : SrvState) (sid fresh : String) (now : Nat)
    (d : ChatSendData) (sess : Session) (user : UserData) (p1 p2 : String)
    (hs : getSessionBySocket sid st = some sess)
    (hu : mapGet st.connectedUsers sid = some user)
    (hp : sess.participants = [p1, p2])
    (hd : ¬ p1 = p2)
    (hc1 : st.connectedSockets.contains p1 = true)
    (hc2 : st.connectedSockets.contains p2 = true) :
    (chatSend sid (some d) fresh now st =
      ⟨st,
       [Emit.chatMessage p1 fresh user.nickname d.message now (decide (p1 = sid)),
        Emit.chatMessage p2 fresh user.nickname d.message now (decide (p2 = sid))],
       none⟩) ∧
    (∀ (st2 : SrvState) (sid2 fresh2 : String) (now2 : Nat)
        (d2 : Option ChatSendData),
      getSessionBySocket sid2 st2 = none →
      chatSend sid2 d2 fresh2 now2 st2 =
        ⟨st2, [Emit.chatSendErr sid2 "Not in an active chat"], none⟩) := by
  constructor
  · unfold chatSend
    rw [hs]
    dsimp only
    rw [hu]
    dsimp only
    rw [hp]
    have hm1 : p1 ∈ st.connectedSockets := by simpa using hc1
    have hm2 : p2 ∈ st.connectedSockets := by simpa using hc2
    simp [hm1, hm2]
  · intro st2 sid2 fresh2 now2 d2 h
    unfold chatSend
    rw [h]

/-- C9 witness: a message in the live session S1 of [b, a] reaches both. -/
theorem chat_send_delivery_witness :
    chatSend "a" (some ⟨some "hi"⟩) "m1" 9 exR4.st =
      ⟨exR4.st,
       [Emit.chatMessage "b" "m1" "A" (some "hi") 9 false,
        Emit.chatMessage "a" "m1" "A" (some "hi") 9 true],
       none⟩ :=
  (chat_send_delivery exR4.st "a" "m1" 9 ⟨some "hi"⟩ ⟨"S1", ["b", "a"], 4⟩
    ⟨"a", "da", "A", "", "unspecified", 1⟩ "b" "a" (by decide) (by decide) rfl
    (by decide) (by decide) (by decide)).1

/-- C9 counterexample: after a same-device registration evicts a's Profile,
a still has an active Session but its chat:send throws a TypeError and
delivers nothing (no ack either); and in a reachable state where a session's
other participant has disconnected, chat:send delivers exactly one message
(to the sender only), not one to each participant. -/
theorem chat_send_counterexample :
    (getSessionBySocket "a" exU1).isSome = true ∧
    (chatSend "a" (some ⟨some "hi"⟩) "m1" 9 exU1).err =
      some "TypeError: cannot read nickname of undefined" ∧
    (chatSend "a" (some ⟨some "hi"⟩) "m1" 9 exU1).emits = [] ∧
    getSessionBySocket "c" exV1 = some ⟨"S2", ["c", "a"], 7⟩ ∧
    (chatSend "c" (some ⟨some "hi"⟩) "m2" 10 exV1).emits =
      [Emit.chatMessage "c" "m2" "C" (some "hi") 10 true] := by decide

/-- C10 (confirmed): a queue:join with preference male/female by a user whose
stored gender is "unspecified" (the default stored by auth:register when the
payload has no gender) draws its whole candidate pool from the any queue —
`matchingQueue["unspecified"] || []` is empty — so such a joiner is never
matched against anyone waiting in the male or female queues. -/
theorem unspecified_gender_pool (st : SrvState) (sid qt fresh : String)
    (now : Nat) (user : UserData)
    (hu : mapGet st.connectedUsers sid = some user)
    (hg : user.gender = "unspecified")
    (hq : qt = "male" ∨ qt = "female") :
    tryMatchPool st sid qt user.gender =
      st.queueAny.filter (fun e => ¬ e.socketId = sid) ∧
    (∀ (m : QueueEntry) (rest : List QueueEntry),
      tryMatchPool st sid qt user.gender = m :: rest →
      m ∈ st.queueAny ∧
      mapGet (tryMatch sid qt fresh now st).1.activeSessions fresh =
        some ⟨fresh, [sid, m.socketId], now⟩) ∧
    (st.queueAny.filter (fun e => ¬ e.socketId = sid) = [] →
      tryMatch sid qt fresh now st = (st, [])) ∧
    (∀ (st2 : SrvState) (sid2 : String) (d : RegisterData) (now2 : Nat)
        (u : UserData),
      d.gender = none →
      (authRegister sid2 (some d) now2 st2).emits = [Emit.registerOk sid2 u] →
      u.gender = "unspecified") := by
  have hpool : tryMatchPool st sid qt user.gender =
      st.queueAny.filter (fun e => ¬ e.socketId = sid) := by
    have hq2 : ¬ qt = "any" := by rcases hq with rfl | rfl <;> decide
    unfold tryMatchPool
    rw [if_neg hq2, hg]
    rw [show st.getQueue "unspecified" = [] from rfl]
    rw [List.append_nil]
  refine ⟨hpool, ?_, ?_, ?_⟩
  · intro m rest hm
    constructor
    · have hmem : m ∈ st.queueAny.filter (fun e => ¬ e.socketId = sid) := by
        rw [← hpool, hm]
        exact List.mem_cons_self m rest
      exact (List.mem_filter.mp hmem).1
    · rw [tryMatch_eq sid qt fresh now st user hu, hm]
      dsimp only
      exact mapGet_mapSet_self _ _ _
  · intro hempty
    rw [tryMatch_eq sid qt fresh now st user hu, hpool, hempty]
  · intro st2 sid2 d now2 u hg2 hemits
    unfold authRegister at hemits
    dsimp only at hemits
    split at hemits
    · simp at hemits
    · split at hemits
      · simp at hemits
      · simp only [List.cons.injEq, and_true, Emit.registerOk.injEq, true_and]
          at hemits
        rw [← hemits]
        rw [hg2]
        rfl

/-- C10 witness: preference "male" with unspecified gender sees only the any
queue. -/
theorem unspecified_gender_pool_witness :
    tryMatchPool exT3 "b" "male"
      ((⟨"b", "db", "B", "", "unspecified", 2⟩ : UserData).gender) =
      exT3.queueAny.filter (fun e => ¬ e.socketId = "b") :=
  (unspecified_gender_pool exT3 "b" "male" "SW" 9
    ⟨"b", "db", "B", "", "unspecified", 2⟩ (by decide) rfl (Or.inl rfl)).1

end GreyRoom
